import Mathlib

/-!
Verification of the core decision logic of the meat-quality monitoring
repository: the gas-status classifier, the quality-level mapping and
external reconciliation, the visual/gas fusion function, the decay model
temperature factor, the reading-store retention policy, the telemetry
message-handling path, and the bus-client start guard.

Python floats are modelled by exact rationals wherever the code only
compares and defaults them, and by real numbers for the transcendental
temperature factor.  Python dictionaries carrying gas readings are
modelled as partial maps `String → Option ℚ`; the parsed JSON tree of a
telemetry payload is modelled by the inductive `JVal`.
-/

set_option autoImplicit false

namespace MeatQuality

/-! ## config.py: sensor thresholds and quality mapping (src/config.py) -/

def H2S_FRESH_THRESHOLD : ℚ := 10
def H2S_WARNING_THRESHOLD : ℚ := 50
def H2S_CRITICAL_THRESHOLD : ℚ := 100

def NH3_FRESH_THRESHOLD : ℚ := 25
def NH3_WARNING_THRESHOLD : ℚ := 100
def NH3_CRITICAL_THRESHOLD : ℚ := 200

def CO2_FRESH_THRESHOLD : ℚ := 400
def CO2_WARNING_THRESHOLD : ℚ := 800
def CO2_CRITICAL_THRESHOLD : ℚ := 1200

/-! ## determine_gas_status (src/mqtt_client_simple.py, lines 347-371) -/

/-- Translation of `determine_gas_status(h2s, nh3, co2)`: critical check
against the `*_CRITICAL_THRESHOLD` constants, then warning check against
the `*_WARNING_THRESHOLD` constants, else `LOW`. -/
def determine_gas_status (h2s nh3 co2 : ℚ) : String :=
  if h2s ≥ H2S_CRITICAL_THRESHOLD ∨ nh3 ≥ NH3_CRITICAL_THRESHOLD ∨
      co2 ≥ CO2_CRITICAL_THRESHOLD then
    "CRITICAL"
  else if h2s ≥ H2S_WARNING_THRESHOLD ∨ nh3 ≥ NH3_WARNING_THRESHOLD ∨
      co2 ≥ CO2_WARNING_THRESHOLD then
    "HIGH"
  else
    "LOW"

/-! ## map_quality_level and the reconciliation block
(src/mqtt_client_simple.py line 334, src/app.py lines 618-630) -/

/-- Translation of `config.QUALITY_LEVEL_MAP.get(esp_quality, "WARNING")`:
the five recognized device labels, everything else defaulting to WARNING. -/
def map_quality_level (esp_quality : String) : String :=
  if esp_quality = "EXCELLENT" then "SAFE"
  else if esp_quality = "GOOD" then "SAFE"
  else if esp_quality = "FAIR" then "WARNING"
  else if esp_quality = "POOR" then "WARNING"
  else if esp_quality = "SPOILED" then "SPOILED"
  else "WARNING"

/-- Translation of the if/elif chain of the app.py reconciliation block,
taking the already-mapped device level `esp_quality`. -/
def reconcile_core (fusion_status esp_quality : String) : String :=
  if esp_quality = "CRITICAL" ∨ fusion_status = "CRITICAL" then "CRITICAL"
  else if esp_quality = "SPOILED" ∨ fusion_status = "SPOILED" then "SPOILED"
  else if esp_quality = "WARNING" ∨ fusion_status = "WARNING" then "WARNING"
  else fusion_status

/-- The full reconciliation step: map the device label, then run the
if/elif chain of app.py lines 618-630. -/
def reconcile_with_esp (fusion_status quality_level : String) : String :=
  reconcile_core fusion_status (map_quality_level quality_level)

/-- Rank of a severity level under the total order
SAFE < WARNING < SPOILED < CRITICAL. -/
def severity_rank (s : String) : ℕ :=
  if s = "WARNING" then 1
  else if s = "SPOILED" then 2
  else if s = "CRITICAL" then 3
  else 0

/-- The more severe of two severity levels under `severity_rank`. -/
def more_severe (a b : String) : String :=
  if severity_rank a < severity_rank b then b else a

/-! ## get_fusion_decision (src/mock_data.py, lines 199-238) -/

/-- The `gas_critical` local of `get_fusion_decision`:
`h2s >= 50 or methane >= 100`. -/
def fusion_gas_critical (h2s methane : ℚ) : Bool :=
  decide (h2s ≥ 50) || decide (methane ≥ 100)

/-- The `gas_warning` local of `get_fusion_decision`:
`h2s >= 10 or methane >= 25`. -/
def fusion_gas_warning (h2s methane : ℚ) : Bool :=
  decide (h2s ≥ 10) || decide (methane ≥ 25)

/-- Translation of `get_fusion_decision(visual_result, gas_readings)`.
The gas-readings dictionary is a partial map; `.get(key, 0)` becomes
`(g key).getD 0`.  Returns the (status, color) pair. -/
def get_fusion_decision (visual_result : String) (gas_readings : String → Option ℚ) :
    String × String :=
  let h2s := (gas_readings "h2s_ppm").getD 0
  let methane := (gas_readings "methane_ppm").getD 0
  if visual_result = "Rotten" ∨ fusion_gas_critical h2s methane then ("CRITICAL", "#8B0000")
  else if visual_result = "Fresh" ∧ ¬(fusion_gas_warning h2s methane) then ("SAFE", "#00AA00")
  else if visual_result = "Fresh" ∧ fusion_gas_warning h2s methane then ("WARNING", "#FF9800")
  else if visual_result = "Rotten" ∧ ¬(fusion_gas_warning h2s methane) then ("SPOILED", "#FF0000")
  else ("WARNING", "#FFC107")

/-- The five ordered fusion rules exactly as the specification words them,
over the visual verdict and the boolean gas signal (critical / elevated):
rule 1 rotten-or-critical, rule 2 fresh-and-low, rule 3 fresh-and-elevated,
rule 4 rotten-and-low, rule 5 conservative WARNING default. -/
def fusion_rules_spec (visual : String) (gas_critical gas_elevated : Bool) : String :=
  if visual = "Rotten" ∨ gas_critical then "CRITICAL"
  else if visual = "Fresh" ∧ gas_elevated = false then "SAFE"
  else if visual = "Fresh" ∧ gas_elevated = true ∧ gas_critical = false then "WARNING"
  else if visual = "Rotten" ∧ gas_elevated = false then "SPOILED"
  else "WARNING"

/-! ## Telemetry message handling
(src/mqtt_client_simple.py, `_process_sensor_data`, lines 229-271) -/

/-- Parsed JSON values, the result of a successful `json.loads`. -/
inductive JVal where
  | null
  | bool (b : Bool)
  | num (q : ℚ)
  | str (s : String)
  | arr (elems : List JVal)
  | obj (fields : List (String × JVal))

/-- Pure lookup of a key in a JSON value: the first binding of the key
when the value is an object, `none` otherwise. -/
def JVal.lookup : JVal → String → Option JVal
  | .obj fields, key => (fields.find? (fun p => p.1 = key)).map Prod.snd
  | _, _ => none

/-- Exceptions that can escape the body of `_process_sensor_data` before
they are caught by its `except` clauses. -/
inductive PyErr where
  | jsonDecodeError   -- json.loads failed: payload is not parseable
  | attrError         -- `.get` called on a value that is not a dict
  | valueError        -- a non-numeric value met a `:.2f` format spec
  | storageError      -- sqlite rejected the bound quality value

/-- Python `value.get(key, default)`: dictionary lookup with a default,
raising `AttributeError` when the receiver is not a dict. -/
def JVal.pyGet (v : JVal) (key : String) (dflt : JVal) : Except PyErr JVal :=
  match v with
  | .obj fields => .ok (((fields.find? (fun p => p.1 = key)).map Prod.snd).getD dflt)
  | _ => .error .attrError

/-- Reading a JSON value as a number the way the handler consumes the
required sensor fields (they pass through a `:.2f` / `:.1f` format spec,
which accepts ints, floats and bools and raises `ValueError` otherwise). -/
def JVal.asNum : JVal → Except PyErr ℚ
  | .num q => .ok q
  | .bool b => .ok (if b then 1 else 0)
  | _ => .error .valueError

/-- A required sensor field: `sensors.get(key, 0.0)` followed by its use
as a number. -/
def JVal.pyGetNum (v : JVal) (key : String) : Except PyErr ℚ :=
  match v.pyGet key (.num 0) with
  | .error e => .error e
  | .ok x => x.asNum

/-- Values sqlite3 accepts for the NOT NULL TEXT column `quality_level`:
strings and numbers bind fine; `None` violates NOT NULL and lists or
dicts are not bindable. -/
def sqlite_text_ok : JVal → Bool
  | .str _ => true
  | .num _ => true
  | .bool _ => true
  | _ => false

/-- The reading the handler persists through `insert_sensor_reading`
(timestamp omitted: it is `datetime.now()` and no claim concerns it). -/
structure SensorRow where
  device_id : String
  temperature : ℚ
  humidity : ℚ
  mq135_co2 : ℚ
  mq136_h2s : ℚ
  mq137_nh3 : ℚ
  quality_level : JVal

/-- The body of `_process_sensor_data` after `json.loads` succeeded:
extract the nested groups with `.get` defaults, read the five required
numeric fields, read the quality level, and build the persisted row.
Any Python exception surfaces as an `Except.error`. -/
def process_parsed (data : JVal) : Except PyErr SensorRow :=
  match data.pyGet "sensors" (.obj []) with
  | .error e => .error e
  | .ok sensors =>
  match data.pyGet "quality" (.obj []) with
  | .error e => .error e
  | .ok quality_data =>
  match sensors.pyGetNum "mq136_h2s" with
  | .error e => .error e
  | .ok h2s =>
  match sensors.pyGetNum "mq137_nh3" with
  | .error e => .error e
  | .ok nh3 =>
  match sensors.pyGetNum "mq135_co2" with
  | .error e => .error e
  | .ok co2 =>
  match sensors.pyGetNum "temperature" with
  | .error e => .error e
  | .ok temp =>
  match sensors.pyGetNum "humidity" with
  | .error e => .error e
  | .ok humidity =>
  match quality_data.pyGet "level" (.str "UNKNOWN") with
  | .error e => .error e
  | .ok quality =>
  if sqlite_text_ok quality then
    .ok { device_id := "ESP32-Sensor", temperature := temp, humidity := humidity,
          mq135_co2 := co2, mq136_h2s := h2s, mq137_nh3 := nh3, quality_level := quality }
  else .error .storageError

/-- The `sensors` group the handler works with: the sensors member of
the payload, defaulting to an empty object, as a pure value. -/
def sensors_of (data : JVal) : JVal := (data.lookup "sensors").getD (.obj [])

/-- The `quality` group the handler works with: the quality member of
the payload, defaulting to an empty object, as a pure value. -/
def quality_of (data : JVal) : JVal := (data.lookup "quality").getD (.obj [])

/-- The whole handler `_process_sensor_data(payload)`: `json.loads` is
the abstract `parse` argument (`none` models `JSONDecodeError`); the
`except` clauses catch every error, log it and insert nothing.  Returns
the row inserted into the store (if any) and whether an error was
logged; the handler itself always returns normally. -/
def process_sensor_data (parse : String → Option JVal) (payload : String) :
    Option SensorRow × Bool :=
  match (match parse payload with
         | none => Except.error PyErr.jsonDecodeError
         | some d => process_parsed d) with
  | .error _ => (none, true)
  | .ok row => (some row, false)

/-! ## Reading store retention (src/db_manager.py, cleanup_old_data, lines 383-433) -/

/-- The three tables of the reading store, reduced to the row timestamps
(in days), which is all `cleanup_old_data` inspects. -/
structure ReadingStore where
  sensor_readings : List ℤ
  visual_predictions : List ℤ
  fusion_decisions : List ℤ

/-- Translation of `DatabaseManager.cleanup_old_data`: a non-positive
retention returns immediately before touching the store; otherwise every
row strictly older than `now - retention_days` is deleted from all three
tables. -/
def cleanup_old_data (retention_days : ℤ) (now : ℤ) (db : ReadingStore) : ReadingStore :=
  if retention_days ≤ 0 then db
  else
    let cutoff_date := now - retention_days
    { sensor_readings := db.sensor_readings.filter (fun t => !(decide (t < cutoff_date)))
      visual_predictions := db.visual_predictions.filter (fun t => !(decide (t < cutoff_date)))
      fusion_decisions := db.fusion_decisions.filter (fun t => !(decide (t < cutoff_date))) }

/-! ## Bus client start guard (src/mqtt_client.py, MQTTClient.start, lines 183-219) -/

/-- The client state `start` reads and writes, plus a count of the
background reconnection threads spawned so far. -/
structure MQTTClientState where
  started : Bool
  keep_running : Bool
  loop_started : Bool
  threads : ℕ

/-- Translation of `MQTTClient.start`: when `_started` is already set the
call logs and returns with nothing changed; otherwise it sets `_started`
and spawns exactly one background reconnection thread. -/
def mqtt_start (s : MQTTClientState) : MQTTClientState :=
  if s.started then s
  else { s with started := true, threads := s.threads + 1 }

/-- The state `MQTTClient.__init__` establishes: not started, keep
running, no loop, no background thread. -/
def initial_client : MQTTClientState :=
  { started := false, keep_running := true, loop_started := false, threads := 0 }

/-! ## Decay model temperature factor
(src/mock_data.py, MeatDecaySimulator, lines 42-57) -/

/-- `self.q10_coefficient`. -/
noncomputable def q10_coefficient : ℝ := 2

/-- `self.reference_temp`. -/
noncomputable def reference_temp : ℝ := 25

/-- Translation of `MeatDecaySimulator._get_temperature_factor`, with
Python floats idealized as reals: at or below freezing the factor is the
floor 0.1, otherwise `max(0.1, q10 ** ((temp - reference) / 10))`. -/
noncomputable def temperature_factor (temp_c : ℝ) : ℝ :=
  if temp_c ≤ 0 then 0.1
  else max 0.1 (q10_coefficient ^ ((temp_c - reference_temp) / 10))

/-! ## Theorems -/

/-- C1: the spec (like the threshold comments in config.py, the dashboard
threshold legend in app.py, and `get_fusion_decision`) places the
critical boundary of the gas classifier at the `*_WARNING_THRESHOLD`
values and the elevated boundary at the `*_FRESH_THRESHOLD` values, but
`determine_gas_status` compares against `*_CRITICAL_THRESHOLD` and
`*_WARNING_THRESHOLD` instead: on the three scenario readings it returns
LOW, HIGH, LOW where the claim requires LOW, CRITICAL, HIGH. -/
theorem C1_determine_gas_status_eval :
    determine_gas_status 5 15 450 = "LOW" ∧
    determine_gas_status 60 15 450 = "HIGH" ∧
    determine_gas_status 15 15 450 = "LOW" := by
  refine ⟨?_, ?_, ?_⟩ <;> rfl

/-- The quality-level map only produces SAFE, WARNING or SPOILED. -/
theorem map_quality_level_mem (q : String) :
    map_quality_level q = "SAFE" ∨ map_quality_level q = "WARNING" ∨
      map_quality_level q = "SPOILED" := by
  unfold map_quality_level
  split_ifs <;> simp

/-- C2: for every fused severity level and every device quality label
other than UNKNOWN, the reconciliation block of app.py returns exactly
the more severe of the fused result and the label mapped through the
fixed table, under the order SAFE < WARNING < SPOILED < CRITICAL;
in particular reconciling SAFE with a SPOILED label gives SPOILED and
reconciling CRITICAL with a label mapped to SAFE gives CRITICAL. -/
theorem C2_reconcile_is_more_severe :
    (∀ fused q : String,
      (fused = "SAFE" ∨ fused = "WARNING" ∨ fused = "SPOILED" ∨ fused = "CRITICAL") →
      q ≠ "UNKNOWN" →
      reconcile_with_esp fused q = more_severe fused (map_quality_level q)) ∧
    reconcile_with_esp "SAFE" "SPOILED" = "SPOILED" ∧
    map_quality_level "EXCELLENT" = "SAFE" ∧
    reconcile_with_esp "CRITICAL" "EXCELLENT" = "CRITICAL" := by
  refine ⟨?_, by decide, by decide, by decide⟩
  intro fused q hf _hq
  have hm := map_quality_level_mem q
  unfold reconcile_with_esp
  rcases hf with h | h | h | h <;> subst h <;>
    rcases hm with hm | hm | hm <;> rw [hm] <;> decide

/-- C2 witness: the reconciliation theorem applied to the fused level
WARNING and the device label SPOILED. -/
theorem C2_reconcile_is_more_severe_witness :
    reconcile_with_esp "WARNING" "SPOILED" =
      more_severe "WARNING" (map_quality_level "SPOILED") :=
  C2_reconcile_is_more_severe.1 "WARNING" "SPOILED" (Or.inr (Or.inl rfl)) (by decide)

/-- C3: `get_fusion_decision` computes exactly the five ordered fusion
rules of the specification over the visual verdict and the gas signal
derived from the h2s and methane entries; its status component is always
one of the four severity levels, and when the visual verdict is neither
Fresh nor Rotten the result is never SAFE. -/
theorem C3_fusion_five_rules :
    ∀ (v : String) (g : String → Option ℚ),
      (get_fusion_decision v g).1 =
        fusion_rules_spec v
          (fusion_gas_critical ((g "h2s_ppm").getD 0) ((g "methane_ppm").getD 0))
          (fusion_gas_warning ((g "h2s_ppm").getD 0) ((g "methane_ppm").getD 0)) ∧
      ((get_fusion_decision v g).1 = "SAFE" ∨ (get_fusion_decision v g).1 = "WARNING" ∨
        (get_fusion_decision v g).1 = "SPOILED" ∨ (get_fusion_decision v g).1 = "CRITICAL") ∧
      (v ≠ "Fresh" → v ≠ "Rotten" → (get_fusion_decision v g).1 ≠ "SAFE") := by
  intro v g
  by_cases hr : v = "Rotten"
  · subst hr
    cases hgc : fusion_gas_critical ((g "h2s_ppm").getD 0) ((g "methane_ppm").getD 0) <;>
      cases hgw : fusion_gas_warning ((g "h2s_ppm").getD 0) ((g "methane_ppm").getD 0) <;>
        simp [get_fusion_decision, fusion_rules_spec, hgc, hgw]
  · by_cases hf : v = "Fresh"
    · subst hf
      cases hgc : fusion_gas_critical ((g "h2s_ppm").getD 0) ((g "methane_ppm").getD 0) <;>
        cases hgw : fusion_gas_warning ((g "h2s_ppm").getD 0) ((g "methane_ppm").getD 0) <;>
          simp [get_fusion_decision, fusion_rules_spec, hgc, hgw]
    · cases hgc : fusion_gas_critical ((g "h2s_ppm").getD 0) ((g "methane_ppm").getD 0) <;>
        cases hgw : fusion_gas_warning ((g "h2s_ppm").getD 0) ((g "methane_ppm").getD 0) <;>
          simp [get_fusion_decision, fusion_rules_spec, hr, hf, hgc, hgw]

/-- C3 witness: on an unrecognized visual verdict and an empty gas
dictionary, the fusion status is not SAFE. -/
theorem C3_fusion_five_rules_witness :
    (get_fusion_decision "Unknown" (fun _ => none)).1 ≠ "SAFE" :=
  (C3_fusion_five_rules "Unknown" (fun _ => none)).2.2 (by decide) (by decide)

/-- C4: a Rotten visual verdict forces the fusion result CRITICAL for
every gas-readings dictionary, and consequently no input at all makes
`get_fusion_decision` return SPOILED: the rotten-and-low-gas branch is
unreachable. -/
theorem C4_spoiled_branch_unreachable :
    (∀ g : String → Option ℚ, (get_fusion_decision "Rotten" g).1 = "CRITICAL") ∧
    (∀ (v : String) (g : String → Option ℚ), (get_fusion_decision v g).1 ≠ "SPOILED") := by
  constructor
  · intro g
    simp [get_fusion_decision]
  · intro v g
    by_cases hr : v = "Rotten"
    · subst hr
      simp [get_fusion_decision]
    · by_cases hf : v = "Fresh" <;>
        cases hgc : fusion_gas_critical ((g "h2s_ppm").getD 0) ((g "methane_ppm").getD 0) <;>
          cases hgw : fusion_gas_warning ((g "h2s_ppm").getD 0) ((g "methane_ppm").getD 0) <;>
            simp [get_fusion_decision, hr, hf, hgc, hgw]

/-- A gas dictionary with h2s 5 ppm and a large ammonia entry. -/
def gas_dict_a : String → Option ℚ := fun k =>
  if k = "h2s_ppm" then some 5
  else if k = "ammonia_ppm" then some 1000
  else none

/-- A gas dictionary agreeing with `gas_dict_a` on the h2s and methane
entries but differing on every other populated key. -/
def gas_dict_b : String → Option ℚ := fun k =>
  if k = "h2s_ppm" then some 5
  else if k = "ammonia_ppm" then some 2
  else if k = "co2_ppm" then some 777
  else none

/-- C10: the fusion decision reads only the visual verdict and the
h2s_ppm and methane_ppm entries of the gas dictionary (each defaulted to
0 when absent): two dictionaries agreeing on those two entries yield the
identical (status, color) pair, whatever their other keys hold. -/
theorem C10_fusion_reads_only_two_keys :
    ∀ (v : String) (g1 g2 : String → Option ℚ),
      (g1 "h2s_ppm").getD 0 = (g2 "h2s_ppm").getD 0 →
      (g1 "methane_ppm").getD 0 = (g2 "methane_ppm").getD 0 →
      get_fusion_decision v g1 = get_fusion_decision v g2 := by
  intro v g1 g2 h1 h2
  simp only [get_fusion_decision, h1, h2]

/-- C10 witness: two concrete dictionaries differing in the ammonia
entry and in an extra key give the same decision. -/
theorem C10_fusion_reads_only_two_keys_witness :
    get_fusion_decision "Fresh" gas_dict_a = get_fusion_decision "Fresh" gas_dict_b :=
  C10_fusion_reads_only_two_keys "Fresh" gas_dict_a gas_dict_b (by decide) (by decide)

/-- C5: a non-parseable telemetry payload is dropped by the handler: it
inserts no row into the reading store, logs an error, and the handler
returns normally, raising nothing past its boundary. -/
theorem C5_malformed_payload_dropped :
    ∀ (parse : String → Option JVal) (payload : String),
      parse payload = none →
      process_sensor_data parse payload = (none, true) := by
  intro parse payload h
  simp [process_sensor_data, h]

/-- C5 witness: the handler on a parser that rejects everything and a
plain-text payload. -/
theorem C5_malformed_payload_dropped_witness :
    process_sensor_data (fun _ => none) "not json" = (none, true) :=
  C5_malformed_payload_dropped (fun _ => none) "not json" rfl

/-- A successful `pyGet` returns the pure lookup with its default. -/
theorem JVal.pyGet_ok_eq {v d w : JVal} {k : String} (h : v.pyGet k d = .ok w) :
    w = (v.lookup k).getD d := by
  cases v <;> simp [JVal.pyGet, JVal.lookup] at h ⊢
  exact h.symm

/-- A successful `pyGet` of an absent key returns the default. -/
theorem JVal.pyGet_lookup_none {v d w : JVal} {k : String}
    (h : v.pyGet k d = .ok w) (hn : v.lookup k = none) : w = d := by
  have := JVal.pyGet_ok_eq h
  rw [hn] at this
  simpa using this

/-- A successful numeric field read of an absent key yields 0. -/
theorem JVal.pyGetNum_lookup_none {v : JVal} {k : String} {q : ℚ}
    (h : v.pyGetNum k = .ok q) (hn : v.lookup k = none) : q = 0 := by
  unfold JVal.pyGetNum at h
  cases hg : v.pyGet k (.num 0) with
  | error e => rw [hg] at h; exact absurd h (by simp)
  | ok x =>
    rw [hg] at h
    have hx : x = JVal.num 0 := JVal.pyGet_lookup_none hg hn
    subst hx
    simp [JVal.asNum] at h
    exact h.symm

/-- C6 (amended): whenever the handler body persists a row from a parsed
payload, the row carries the fixed device id ESP32-Sensor, every
required sensor field absent from the sensors group is 0, and an absent
quality level is the string UNKNOWN; in particular the empty JSON object
persists the fully-defaulted row.  (The original claim also asserted
that every parseable payload persists a row, which the array
counterexample refutes.) -/
theorem C6_persisted_row_defaults :
    (∀ (data : JVal) (row : SensorRow), process_parsed data = .ok row →
      row.device_id = "ESP32-Sensor" ∧
      ((sensors_of data).lookup "mq136_h2s" = none → row.mq136_h2s = 0) ∧
      ((sensors_of data).lookup "mq137_nh3" = none → row.mq137_nh3 = 0) ∧
      ((sensors_of data).lookup "mq135_co2" = none → row.mq135_co2 = 0) ∧
      ((sensors_of data).lookup "temperature" = none → row.temperature = 0) ∧
      ((sensors_of data).lookup "humidity" = none → row.humidity = 0) ∧
      ((quality_of data).lookup "level" = none → row.quality_level = .str "UNKNOWN")) ∧
    process_parsed (JVal.obj []) =
      .ok { device_id := "ESP32-Sensor", temperature := 0, humidity := 0,
            mq135_co2 := 0, mq136_h2s := 0, mq137_nh3 := 0,
            quality_level := .str "UNKNOWN" } := by
  constructor
  · intro data row h
    unfold process_parsed at h
    cases h1 : data.pyGet "sensors" (.obj []) with
    | error e => rw [h1] at h; exact absurd h (by simp)
    | ok sensors =>
    rw [h1] at h
    dsimp only at h
    cases h2 : data.pyGet "quality" (.obj []) with
    | error e => rw [h2] at h; exact absurd h (by simp)
    | ok quality_data =>
    rw [h2] at h
    dsimp only at h
    cases h3 : sensors.pyGetNum "mq136_h2s" with
    | error e => rw [h3] at h; exact absurd h (by simp)
    | ok h2s =>
    rw [h3] at h
    dsimp only at h
    cases h4 : sensors.pyGetNum "mq137_nh3" with
    | error e => rw [h4] at h; exact absurd h (by simp)
    | ok nh3 =>
    rw [h4] at h
    dsimp only at h
    cases h5 : sensors.pyGetNum "mq135_co2" with
    | error e => rw [h5] at h; exact absurd h (by simp)
    | ok co2 =>
    rw [h5] at h
    dsimp only at h
    cases h6 : sensors.pyGetNum "temperature" with
    | error e => rw [h6] at h; exact absurd h (by simp)
    | ok temp =>
    rw [h6] at h
    dsimp only at h
    cases h7 : sensors.pyGetNum "humidity" with
    | error e => rw [h7] at h; exact absurd h (by simp)
    | ok humidity =>
    rw [h7] at h
    dsimp only at h
    cases h8 : quality_data.pyGet "level" (.str "UNKNOWN") with
    | error e => rw [h8] at h; exact absurd h (by simp)
    | ok quality =>
    rw [h8] at h
    dsimp only at h
    by_cases hq : sqlite_text_ok quality = true
    · rw [if_pos hq] at h
      have hrow := (Except.ok.injEq _ _).mp h
      subst hrow
      have hsv : sensors = sensors_of data := JVal.pyGet_ok_eq h1
      have hqv : quality_data = quality_of data := JVal.pyGet_ok_eq h2
      subst hsv
      subst hqv
      refine ⟨rfl, ?_, ?_, ?_, ?_, ?_, ?_⟩
      · intro hn; exact JVal.pyGetNum_lookup_none h3 hn
      · intro hn; exact JVal.pyGetNum_lookup_none h4 hn
      · intro hn; exact JVal.pyGetNum_lookup_none h5 hn
      · intro hn; exact JVal.pyGetNum_lookup_none h6 hn
      · intro hn; exact JVal.pyGetNum_lookup_none h7 hn
      · intro hn; exact JVal.pyGet_lookup_none h8 hn
    · rw [if_neg hq] at h
      exact absurd h (by simp)
  · rfl

/-- C6 counterexample: the payload text of an empty JSON array parses,
but the handler body raises AttributeError at `data.get` and persists
nothing, so the claim that every parseable payload yields a persisted
reading with the fixed device id fails on it. -/
theorem C6_array_payload_persists_nothing :
    process_parsed (JVal.arr []) = .error .attrError ∧
    ¬ ∃ row : SensorRow, process_parsed (JVal.arr []) = .ok row := by
  refine ⟨rfl, ?_⟩
  rintro ⟨row, hrow⟩
  rw [show process_parsed (JVal.arr []) = .error .attrError from rfl] at hrow
  exact Except.noConfusion hrow

/-- C6 witness: the amended theorem applied to the empty-object payload,
whose persisted row takes the h2s default 0. -/
theorem C6_persisted_row_defaults_witness :
    (SensorRow.mk "ESP32-Sensor" 0 0 0 0 0 (JVal.str "UNKNOWN")).mq136_h2s = 0 :=
  (C6_persisted_row_defaults.1 (JVal.obj [])
    (SensorRow.mk "ESP32-Sensor" 0 0 0 0 0 (JVal.str "UNKNOWN")) rfl).2.1 rfl

/-- C7: the decay-model temperature factor is at least its floor 0.1 for
every temperature, is monotonically non-decreasing in the temperature,
and equals exactly 0.1 at every temperature at or below freezing. -/
theorem C7_temperature_factor_floor_and_monotone :
    (∀ t : ℝ, 0.1 ≤ temperature_factor t) ∧
    (∀ t1 t2 : ℝ, t1 ≤ t2 → temperature_factor t1 ≤ temperature_factor t2) ∧
    (∀ t : ℝ, t ≤ 0 → temperature_factor t = 0.1) := by
  refine ⟨?_, ?_, ?_⟩
  · intro t
    unfold temperature_factor
    split_ifs with h
    · exact le_refl _
    · exact le_max_left _ _
  · intro t1 t2 h12
    unfold temperature_factor
    by_cases h1 : t1 ≤ 0
    · rw [if_pos h1]
      by_cases h2 : t2 ≤ 0
      · rw [if_pos h2]
      · rw [if_neg h2]
        exact le_max_left _ _
    · have h2 : ¬ t2 ≤ 0 := fun hc => h1 (le_trans h12 hc)
      rw [if_neg h1, if_neg h2]
      refine max_le_max (le_refl _) ?_
      have hexp : (t1 - reference_temp) / 10 ≤ (t2 - reference_temp) / 10 := by
        unfold reference_temp
        linarith
      have hb : (1 : ℝ) < q10_coefficient := by
        unfold q10_coefficient
        norm_num
      exact (Real.rpow_le_rpow_left_iff hb).2 hexp
  · intro t ht
    unfold temperature_factor
    rw [if_pos ht]

/-- C7 witness: the monotonicity and floor parts of the theorem at the
temperatures -3 and 7. -/
theorem C7_temperature_factor_witness :
    temperature_factor (-3) ≤ temperature_factor 7 ∧ temperature_factor (-3) = 0.1 :=
  ⟨C7_temperature_factor_floor_and_monotone.2.1 (-3) 7 (by norm_num),
   C7_temperature_factor_floor_and_monotone.2.2 (-3) (by norm_num)⟩

/-- C8: calling cleanup with any retention of at most 0 days leaves the
reading store untouched: the whole state is returned unchanged, so the
row counts of all three tables are unchanged, and no error arises (the
function is total). -/
theorem C8_nonpositive_retention_is_noop :
    ∀ (retention_days now : ℤ) (db : ReadingStore),
      retention_days ≤ 0 →
      cleanup_old_data retention_days now db = db ∧
      (cleanup_old_data retention_days now db).sensor_readings.length =
        db.sensor_readings.length ∧
      (cleanup_old_data retention_days now db).visual_predictions.length =
        db.visual_predictions.length ∧
      (cleanup_old_data retention_days now db).fusion_decisions.length =
        db.fusion_decisions.length := by
  intro r now db h
  have hid : cleanup_old_data r now db = db := by
    unfold cleanup_old_data
    rw [if_pos h]
  exact ⟨hid, by rw [hid], by rw [hid], by rw [hid]⟩

/-- A concrete store holding rows old enough that a positive retention
would delete them. -/
def sample_store : ReadingStore :=
  { sensor_readings := [-100, 5], visual_predictions := [-100], fusion_decisions := [3] }

/-- C8 witness: cleanup with retention 0 on a store with stale rows. -/
theorem C8_nonpositive_retention_is_noop_witness :
    cleanup_old_data 0 50 sample_store = sample_store :=
  (C8_nonpositive_retention_is_noop 0 50 sample_store (by decide)).1

/-- A `start` call on an already-started client returns the state
unchanged. -/
theorem mqtt_start_fixed {s : MQTTClientState} (hs : s.started = true) :
    mqtt_start s = s := by
  unfold mqtt_start
  rw [if_pos hs]

/-- After any `start` call the `_started` flag is set. -/
theorem mqtt_start_started (s : MQTTClientState) : (mqtt_start s).started = true := by
  unfold mqtt_start
  split_ifs with hs
  · exact hs
  · rfl

/-- A `start` call on a not-yet-started client spawns exactly one
background thread. -/
theorem mqtt_start_threads_of_not_started {s : MQTTClientState}
    (hs : ¬ s.started = true) : (mqtt_start s).threads = s.threads + 1 := by
  unfold mqtt_start
  rw [if_neg hs]

/-- C9: a `start()` call on an already-started bus client changes
nothing (in particular it spawns no second background reconnection
thread), `start` is idempotent on every state, and from a freshly
constructed client any number of `start` calls leaves at most one
background reconnection thread in existence. -/
theorem C9_start_idempotent :
    (∀ s : MQTTClientState, s.started = true → mqtt_start s = s) ∧
    (∀ s : MQTTClientState, mqtt_start (mqtt_start s) = mqtt_start s) ∧
    (∀ n : ℕ, (mqtt_start^[n] initial_client).threads ≤ 1) := by
  have key : ∀ n : ℕ,
      ((mqtt_start^[n] initial_client).started = false →
        (mqtt_start^[n] initial_client).threads = 0) ∧
      (mqtt_start^[n] initial_client).threads ≤ 1 := by
    intro n
    induction n with
    | zero => exact ⟨fun _ => rfl, by norm_num [initial_client]⟩
    | succ k ih =>
      rw [Function.iterate_succ_apply']
      by_cases hst : (mqtt_start^[k] initial_client).started = true
      · rw [mqtt_start_fixed hst]
        exact ih
      · have hsf : (mqtt_start^[k] initial_client).started = false :=
          eq_false_of_ne_true hst
        have ht0 : (mqtt_start^[k] initial_client).threads = 0 := ih.1 hsf
        constructor
        · intro hc
          rw [mqtt_start_started _] at hc
          exact absurd hc (by simp)
        · rw [mqtt_start_threads_of_not_started hst, ht0]
  refine ⟨fun s hs => mqtt_start_fixed hs, ?_, fun n => (key n).2⟩
  intro s
  exact mqtt_start_fixed (mqtt_start_started s)

/-- A client whose `_started` flag is already set, owning one thread. -/
def started_client : MQTTClientState :=
  { started := true, keep_running := true, loop_started := true, threads := 1 }

/-- C9 witness: a second start call on a started client is the identity. -/
theorem C9_start_idempotent_witness : mqtt_start started_client = started_client :=
  C9_start_idempotent.1 started_client rfl

end MeatQuality
